import Mathlib

/-!
# Verification of the p2llvm SimpleSerial UART driver and SD/MMC disk driver

Shallow embedding of `src/libc/drivers/SimpleSerial.c` and
`src/libc/drivers/diskio.c`.

The UART transmit/receive loops are modelled at the bit level: the line
waveform produced by `_serial_putbyte` is a function of time measured in
half-bit periods, and `_serial_getbyte` samples it at the bit centers that
its cycle-counter arithmetic produces.

The SD driver is modelled by explicit state passing: the external transport
(`SendCommand`, `ReceiveSD`, `ReceiveBlock`, `SendBlock`, `SelectSD`,
declared in `sd_mmc.h` and implemented outside this repository) is an oracle
whose answers may depend on a global call counter (`step`), and every call
to a transport primitive is recorded in an event trace so that theorems can
speak about which commands were issued and how often chip-select was
released.  The single `static char CardType` of `diskio.c` is the
`cardType` field of the state.
-/

namespace P2llvm

/-! ## Software UART (`SimpleSerial.c`, the bit-banged P1 branch)

`_serial_putbyte` (lines 37-67): drives the tx pin high, computes
`value = (c | 256) << 1`, then on each of 10 bit periods waits for the next
cycle-counter target and drives the pin to bit `i` of `value` (LSB first).
So in half-bit time units from the call: the line is idle high during
`[0,2)`, and bit `i` of `value` is driven during `[2i+2, 2i+4)`; after the
last (stop) bit the pin stays at that level (the driver never clears DIRA).
-/

/-- The 10-bit frame `(c | 256) << 1` built by `_serial_putbyte`:
bit 0 is the start bit (0), bits 1..8 the data LSB first, bit 9 the stop
bit (1). -/
def txValue (c : Nat) : Nat := (c ||| 256) <<< 1

/-- Line level (true = high) at half-bit time `t` after `_serial_putbyte`
begins: idle high for one bit period, then frame bit `i` during
`[2i+2, 2i+4)`, holding the stop level afterwards. -/
def txLine (c : Nat) (t : Nat) : Bool :=
  if t < 2 then true
  else Nat.testBit (txValue c) (min ((t - 2) / 2) 9)

/-- `_serial_getbyte` (lines 89-119) detects the falling start edge (at
half-bit time 2 of the transmitter), then sets the first wait target to
`getcnt() + bitcycles/2 + bitcycles`; the loop samples once per bit period,
so sample `i` is taken at half-bit time `2 + 3 + 2i = 5 + 2i`. -/
def rxSample (line : Nat → Bool) (i : Nat) : Bool := line (5 + 2 * i)

/-- The receiver's accumulation `value = (sample << 7) | (value >> 1)`
folded over the samples, starting from `value = 0`. -/
def getbyteAccum (samples : List Bool) : Nat :=
  samples.foldl (fun v b => ((if b then 1 else 0) <<< 7) ||| (v >>> 1)) 0

/-- The byte `_serial_getbyte` assembles from a given line waveform. -/
def serial_getbyte (line : Nat → Bool) : Nat :=
  getbyteAccum ((List.range 8).map (rxSample line))

/-! ## `_serial_fopen` (`SimpleSerial.c` lines 131-178)

The connection string is `"baud,rxpin,txpin"` with every field optional.
`atoi` is the standard C library function (skip whitespace, optional sign,
decimal digits); assigning its `int` result to the `unsigned int` fields
reduces it modulo `2^32`.  A NULL name and an empty name behave alike
(`if (name && *name)`), so the name is modelled as a `List Char` where `[]`
covers both.  The P2 branch stores `rxpin`, `txpin`, `baud` into the file's
driver arguments and returns 0; the `_uart_init`, terminal-flag and lock
side effects have no observable part in the claims and are not modelled. -/

/-- Decimal digit accumulation of C `atoi`, stopping at the first
non-digit. -/
def atoiDigits : List Char → Nat → Nat
  | c :: rest, acc =>
      if c.isDigit then atoiDigits rest (acc * 10 + (c.toNat - 48)) else acc
  | [], acc => acc

/-- The leading-whitespace skip of C `atoi`. -/
def atoiSkipWs (s : List Char) : List Char :=
  s.dropWhile fun c =>
    c == ' ' || c == '\t' || c == '\n' || c == '\x0b' || c == '\x0c' || c == '\r'

/-- The sign handling of C `atoi`, applied after the whitespace skip. -/
def atoiSigned : List Char → Int
  | [] => 0
  | c :: rest =>
      if c == '-' then -(atoiDigits rest 0 : Int)
      else if c == '+' then (atoiDigits rest 0 : Int)
      else (atoiDigits (c :: rest) 0 : Int)

/-- C `atoi`: optional whitespace, optional sign, decimal digits. -/
def atoi (s : List Char) : Int := atoiSigned (atoiSkipWs s)

/-- Conversion of a C `int` value to `unsigned int` (reduction mod 2^32). -/
def cuint (i : Int) : Nat := (i % (2 ^ 32 : Int)).toNat

/-- `_serial_fopen`: parse `"baud[,rxpin[,txpin]]"` left to right, fields
defaulting to the compiled-in platform values; result is
`(baud, rxpin, txpin, return code)`.  The return code is always 0. -/
def serial_fopen (defBaud defRx defTx : Nat) (name : List Char) :
    Nat × Nat × Nat × Nat :=
  if name.isEmpty then (defBaud, defRx, defTx, 0)
  else
    let baud := cuint (atoi name)
    let rest := name.dropWhile fun c => !(c == ',')
    match rest with
    | [] => (baud, defRx, defTx, 0)
    | _ :: rest2 =>
        let rx := cuint (atoi rest2)
        let rest3 := rest2.dropWhile fun c => !(c == ',')
        match rest3 with
        | [] => (baud, rx, defTx, 0)
        | _ :: rest4 => (baud, rx, cuint (atoi rest4), 0)

/-! ## SD/MMC driver constants

`CT_MMC`/`CT_SDC1`/`CT_SDC2`/`CT_BLOCK` follow the bit assignment stated in
`diskio.c` line 19 (`b0:MMC, b1:SDv1, b2:SDv2, b3:Block addressing`), with
`CT_SDC` the SD-family mask.  The command indices and the status/result
codes come from the FatFs headers `diskio.h`/`sd_mmc.h` referenced by the
source (not under `src/`); the development only relies on the command
constants being pairwise distinct. -/

def CMD0 : Nat := 0
def CMD1 : Nat := 1
def CMD8 : Nat := 8
def CMD9 : Nat := 9
def CMD12 : Nat := 12
def CMD16 : Nat := 16
def CMD17 : Nat := 17
def CMD18 : Nat := 18
def CMD24 : Nat := 24
def CMD25 : Nat := 25
def CMD58 : Nat := 58
def ACMD23 : Nat := 0x80 + 23
def ACMD41 : Nat := 0x80 + 41

def CT_MMC : Nat := 0x01
def CT_SDC1 : Nat := 0x02
def CT_SDC2 : Nat := 0x04
def CT_SDC : Nat := CT_SDC1 ||| CT_SDC2
def CT_BLOCK : Nat := 0x08

def STA_NOINIT : Nat := 0x01

def CTRL_SYNC : Nat := 0
def GET_SECTOR_COUNT : Nat := 1
def GET_BLOCK_SIZE : Nat := 3

/-- The FatFs `DRESULT` codes returned by the disk functions. -/
inductive DRESULT where
  | ok
  | error
  | wrprt
  | notrdy
  | parerr
deriving DecidableEq

/-- One observable call to the SD transport / chip-select layer. -/
inductive Ev where
  | enable (pdrv : Nat)
  | select (pdrv : Nat)
  | release (pdrv : Nat)
  | cmd (pdrv c arg : Nat)
  | recvSD (pdrv len : Nat)
  | recvBlock (pdrv len : Nat)
  | sendBlock (pdrv token : Nat)
deriving DecidableEq

/-- The external SD transport: answers may depend on a global call counter
(`step`), the drive, and the call arguments, which lets one oracle describe
any card behaviour, including responses that change between polling
attempts. -/
structure Oracle where
  cmdResp : Nat → Nat → Nat → Nat → Nat
  recvSDData : Nat → Nat → Nat → List Nat
  recvBlockOk : Nat → Nat → Nat → Bool
  recvBlockData : Nat → Nat → Nat → List Nat
  sendBlockOk : Nat → Nat → Nat → Bool
  selectOk : Nat → Nat → Bool

/-- Driver state: the global call counter, the event trace (most recent
call first) and the process-wide `static char CardType` of `diskio.c`. -/
structure SDState where
  step : Nat
  trace : List Ev
  cardType : Nat

/-- Record one transport call: append its event, advance the counter. -/
def record (e : Ev) (s : SDState) : SDState :=
  { s with step := s.step + 1, trace := e :: s.trace }

def EnableSD (pdrv : Nat) (s : SDState) : SDState := record (.enable pdrv) s

def ReleaseSD (pdrv : Nat) (s : SDState) : SDState := record (.release pdrv) s

def SelectSD (o : Oracle) (pdrv : Nat) (s : SDState) : Bool × SDState :=
  (o.selectOk s.step pdrv, record (.select pdrv) s)

def SendCommand (o : Oracle) (pdrv c arg : Nat) (s : SDState) : Nat × SDState :=
  (o.cmdResp s.step pdrv c arg, record (.cmd pdrv c arg) s)

def ReceiveSD (o : Oracle) (pdrv len : Nat) (s : SDState) : List Nat × SDState :=
  (o.recvSDData s.step pdrv len, record (.recvSD pdrv len) s)

def ReceiveBlock (o : Oracle) (pdrv len : Nat) (s : SDState) :
    (Bool × List Nat) × SDState :=
  ((o.recvBlockOk s.step pdrv len, o.recvBlockData s.step pdrv len),
    record (.recvBlock pdrv len) s)

def SendBlock (o : Oracle) (pdrv token : Nat) (s : SDState) : Bool × SDState :=
  (o.sendBlockOk s.step pdrv token, record (.sendBlock pdrv token) s)

/-! ## `disk_initialize` (`diskio.c` lines 38-111) -/

/-- The stabilization loop `for (i=0;i<100;i++) ReceiveSD(pdrv, buff, 1);`. -/
def initRecvLoop (o : Oracle) (pdrv : Nat) : Nat → SDState → SDState
  | 0, s => s
  | n + 1, s => initRecvLoop o pdrv n (ReceiveSD o pdrv 1 s).2

/-- The polling loop
`for (i=0;i<10000;i++) { if (SendCommand(pdrv,c,arg)==0) break; WAITS; }`,
written with the remaining iteration count as fuel; returns the final `i`
(the loop counter) and the state.  `WAITS` is a pure delay. -/
def initPoll (o : Oracle) (pdrv c arg : Nat) : Nat → Nat → SDState → Nat × SDState
  | 0, i, s => (i, s)
  | fuel + 1, i, s =>
      let p := SendCommand o pdrv c arg s
      if p.1 == 0 then (i, p.2) else initPoll o pdrv c arg fuel (i + 1) p.2

/-- The common tail of `disk_initialize`: `CardType = type; ReleaseSD(pdrv);`
then `return type == 0 ? STA_NOINIT : 0;`. -/
def finishInit (pdrv ty : Nat) (s : SDState) : Nat × SDState :=
  (if ty == 0 then STA_NOINIT else 0, ReleaseSD pdrv { s with cardType := ty })

/-- `disk_initialize`: card-detection sequence; see `diskio.c` lines 38-111. -/
def disk_initialize (o : Oracle) (pdrv : Nat) (s0 : SDState) : Nat × SDState :=
  let s := initRecvLoop o pdrv 100 (EnableSD pdrv s0)
  let p0 := SendCommand o pdrv CMD0 0 s
  if p0.1 == 1 then
    let p8 := SendCommand o pdrv CMD8 0x1AA p0.2
    if p8.1 == 1 then
      let pr := ReceiveSD o pdrv 4 p8.2
      if pr.1.getD 2 0 == 0x01 && pr.1.getD 3 0 == 0xAA then
        let pp := initPoll o pdrv ACMD41 (1 <<< 30) 10000 0 pr.2
        if pp.1 < 10000 then
          let p58 := SendCommand o pdrv CMD58 0 pp.2
          if p58.1 == 0 then
            let pr2 := ReceiveSD o pdrv 4 p58.2
            if pr2.1.getD 0 0 &&& 0x40 == 0 then finishInit pdrv CT_SDC2 pr2.2
            else finishInit pdrv (CT_SDC2 ||| CT_BLOCK) pr2.2
          else finishInit pdrv 0 p58.2
        else finishInit pdrv 0 pp.2
      else finishInit pdrv 0 pr.2
    else
      let pa := SendCommand o pdrv ACMD41 0 p8.2
      let ty := if pa.1 ≤ 1 then CT_SDC1 else CT_MMC
      let c := if pa.1 ≤ 1 then ACMD41 else CMD1
      let pp := initPoll o pdrv c 0 10000 0 pa.2
      if pp.1 == 10000 then finishInit pdrv 0 pp.2
      else
        let p16 := SendCommand o pdrv CMD16 512 pp.2
        if p16.1 != 0 then finishInit pdrv 0 p16.2
        else finishInit pdrv ty p16.2
  else finishInit pdrv 0 p0.2

/-! ## `disk_read` (`diskio.c` lines 119-157) and
`disk_write` (lines 167-211) -/

/-- The sector-to-address translation common to `disk_read` and
`disk_write`: the 64-bit LBA is first truncated to `unsigned int`, then
multiplied by 512 (mod 2^32) unless the card is block addressed. -/
def sectAddr (cardType sector : Nat) : Nat :=
  if cardType &&& CT_BLOCK == 0 then sector % 2 ^ 32 * 512 % 2 ^ 32
  else sector % 2 ^ 32

/-- The receive loop of `disk_read`:
`for (i=0;i<count;i++) { if (ReceiveBlock(pdrv,buff,512)==0) break; buff += 512; }`
with the remaining iteration count as fuel; returns `(i, buff)` and the
state. -/
def readLoop (o : Oracle) (pdrv : Nat) : Nat → Nat → Nat → SDState → (Nat × Nat) × SDState
  | 0, i, buff, s => ((i, buff), s)
  | rem + 1, i, buff, s =>
      let p := ReceiveBlock o pdrv 512 s
      if p.1.1 then readLoop o pdrv rem (i + 1) (buff + 512) p.2
      else ((i, buff), p.2)

/-- `disk_read`. -/
def disk_read (o : Oracle) (pdrv buff sector count : Nat) (s0 : SDState) :
    DRESULT × SDState :=
  let sect := sectAddr s0.cardType sector
  let c := if count > 1 then CMD18 else CMD17
  let pc := SendCommand o pdrv c sect s0
  let r :=
    if pc.1 == 0 then
      let pl := readLoop o pdrv count 0 buff pc.2
      if c == CMD18 then (pl.1.1, (SendCommand o pdrv CMD12 0 pl.2).2)
      else (pl.1.1, pl.2)
    else (0, pc.2)
  let s1 := ReleaseSD pdrv r.2
  (if r.1 != count then DRESULT.error else DRESULT.ok, s1)

/-- The send loop of `disk_write`:
`for (i=0;i<count;i++) { if (SendBlock(pdrv,buff,0xfc)==0) break; buff += 512; }`. -/
def writeLoop (o : Oracle) (pdrv : Nat) : Nat → Nat → Nat → SDState → (Nat × Nat) × SDState
  | 0, i, buff, s => ((i, buff), s)
  | rem + 1, i, buff, s =>
      let p := SendBlock o pdrv 0xfc s
      if p.1 then writeLoop o pdrv rem (i + 1) (buff + 512) p.2
      else ((i, buff), p.2)

/-- `disk_write`. -/
def disk_write (o : Oracle) (pdrv buff sector count : Nat) (s0 : SDState) :
    DRESULT × SDState :=
  let sect := sectAddr s0.cardType sector
  let r :=
    if count == 1 then
      let pc := SendCommand o pdrv CMD24 sect s0
      if pc.1 == 0 then
        let pb := SendBlock o pdrv 0xfe pc.2
        (if pb.1 then 1 else 0, pb.2)
      else (0, pc.2)
    else
      let s1 :=
        if s0.cardType &&& CT_SDC != 0 then (SendCommand o pdrv ACMD23 count s0).2
        else s0
      let pc := SendCommand o pdrv CMD25 sect s1
      if pc.1 == 0 then
        let pl := writeLoop o pdrv count 0 buff pc.2
        let ps := SendBlock o pdrv 0xfd pl.2
        (if ps.1 then pl.1.1 else 0, ps.2)
      else (0, pc.2)
  let s2 := ReleaseSD pdrv r.2
  (if count != r.1 then DRESULT.error else DRESULT.ok, s2)

/-! ## `disk_ioctl` (`diskio.c` lines 220-268)

The value the switch writes through `buff` is returned as an
`Option Nat` (`none` when nothing is written).  In the `GET_SECTOR_COUNT`
branches `cs` and the shifted result are `unsigned int`, so the final shift
is reduced mod 2^32.  In the version-0 formula the C shift count `n - 9`
is an `int`; it is modelled by truncated subtraction (the source would have
undefined behaviour for `n < 9`). -/
def disk_ioctl (o : Oracle) (pdrv ctrl : Nat) (s0 : SDState) :
    (DRESULT × Option Nat) × SDState :=
  let r :=
    if ctrl == CTRL_SYNC then
      let p := SelectSD o pdrv s0
      ((if p.1 then DRESULT.ok else DRESULT.error, none), p.2)
    else if ctrl == GET_SECTOR_COUNT then
      let pc := SendCommand o pdrv CMD9 0 s0
      if pc.1 == 0 then
        let pr := ReceiveBlock o pdrv 16 pc.2
        let csd := pr.1.2
        if pr.1.1 then
          if csd.getD 0 0 &&& 0x20 != 0 then
            let cs := csd.getD 9 0 + (csd.getD 8 0 <<< 8) +
              ((csd.getD 7 0 &&& 63) <<< 16) + 1
            ((DRESULT.ok, some (cs <<< 10 % 2 ^ 32)), pr.2)
          else
            let n := (csd.getD 5 0 &&& 0x0f) + (csd.getD 10 0 >>> 7) +
              ((csd.getD 9 0 &&& 0x03) <<< 1) + 2
            let cs := (csd.getD 9 0 >>> 6) + (csd.getD 7 0 <<< 2) +
              ((csd.getD 6 0 &&& 0x03) <<< 10) + 1
            ((DRESULT.ok, some (cs <<< (n - 9) % 2 ^ 32)), pr.2)
        else ((DRESULT.error, none), pr.2)
      else ((DRESULT.error, none), pc.2)
    else if ctrl == GET_BLOCK_SIZE then ((DRESULT.ok, some 128), s0)
    else ((DRESULT.parerr, none), s0)
  ((r.1.1, r.1.2), ReleaseSD pdrv r.2)

/-! ## Trace observations -/

/-- Is this event a chip-select release for drive `pdrv`? -/
def isRelease (pdrv : Nat) : Ev → Bool
  | .release p => p == pdrv
  | _ => false

/-- Is this event a data-block receive for drive `pdrv`? -/
def isRecvBlock (pdrv : Nat) : Ev → Bool
  | .recvBlock p _ => p == pdrv
  | _ => false

/-- Is this event a data-block send (token 0xFC or 0xFE) for drive
`pdrv`?  The 0xFD stop token carries no data. -/
def isDataBlock (pdrv : Nat) : Ev → Bool
  | .sendBlock p t => p == pdrv && (t == 0xfc || t == 0xfe)
  | _ => false

/-- Number of `ReleaseSD(pdrv)` calls recorded in the state. -/
def relCount (pdrv : Nat) (s : SDState) : Nat := s.trace.countP (isRelease pdrv)

/-- Number of data-block receives for `pdrv` recorded in the state. -/
def recvBlockCount (pdrv : Nat) (s : SDState) : Nat :=
  s.trace.countP (isRecvBlock pdrv)

/-- Number of data-block sends for `pdrv` recorded in the state. -/
def dataBlockCount (pdrv : Nat) (s : SDState) : Nat :=
  s.trace.countP (isDataBlock pdrv)

/-! ## Concrete transports used as witnesses and counterexamples -/

/-- The empty initial driver state. -/
def initSt : SDState := ⟨0, [], 0⟩

/-- An initial state whose stored card type is SDv2 (SD family, byte
addressed). -/
def initStSD : SDState := ⟨0, [], CT_SDC2⟩

/-- A card that answers every command with 1 (idle, never ready). -/
def oNever : Oracle :=
  { cmdResp := fun _ _ _ _ => 1
    recvSDData := fun _ _ _ => []
    recvBlockOk := fun _ _ _ => false
    recvBlockData := fun _ _ _ => []
    sendBlockOk := fun _ _ _ => false
    selectOk := fun _ _ => false }

/-- A transport that rejects every command (response 5) and fails every
block transfer. -/
def oReject : Oracle :=
  { cmdResp := fun _ _ _ _ => 5
    recvSDData := fun _ _ _ => []
    recvBlockOk := fun _ _ _ => false
    recvBlockData := fun _ _ _ => []
    sendBlockOk := fun _ _ _ => false
    selectOk := fun _ _ => false }

/-- A transport that acknowledges every command with 0 but fails every
block receive. -/
def oAck : Oracle :=
  { cmdResp := fun _ _ _ _ => 0
    recvSDData := fun _ _ _ => []
    recvBlockOk := fun _ _ _ => false
    recvBlockData := fun _ _ _ => []
    sendBlockOk := fun _ _ _ => false
    selectOk := fun _ _ => false }

/-- Drive 0 carries a block-addressed SDv2 card (CMD0/CMD8 acknowledged,
voltage echo 0x01/0xAA, ACMD41 immediately ready, CMD58 byte0 = 0x40);
every other drive fails CMD0. -/
def oC3 : Oracle :=
  { cmdResp := fun _ d c _ =>
      if d == 0 then (if c == 0 then 1 else if c == 8 then 1 else 0) else 5
    recvSDData := fun _ _ len => if len == 4 then [0x40, 0, 0x01, 0xAA] else [0]
    recvBlockOk := fun _ _ _ => false
    recvBlockData := fun _ _ _ => []
    sendBlockOk := fun _ _ _ => false
    selectOk := fun _ _ => false }

/-- A version-1 CSD whose decoded capacity is exactly `2^22`, so shifting
by 10 in 32-bit unsigned arithmetic overflows to 0:
`csd[0] = 0x20` (bit 5 set), `csd[7..9] = {0x3F, 0xFF, 0xFF}`. -/
def csdOver : List Nat :=
  [0x20, 0, 0, 0, 0, 0, 0, 0x3F, 0xFF, 0xFF, 0, 0, 0, 0, 0, 0]

/-- The version-1 CSD test vector of the claim:
`csd[0] = 0x20`, `csd[7..9] = {0x3F, 0x00, 0x01}`. -/
def csdVec : List Nat :=
  [0x20, 0, 0, 0, 0, 0, 0, 0x3F, 0x00, 0x01, 0, 0, 0, 0, 0, 0]

/-- A card that acknowledges every command and returns CSD `csdOver` for
every 16-byte block receive. -/
def oC7over : Oracle :=
  { cmdResp := fun _ _ _ _ => 0
    recvSDData := fun _ _ _ => []
    recvBlockOk := fun _ _ _ => true
    recvBlockData := fun _ _ _ => csdOver
    sendBlockOk := fun _ _ _ => false
    selectOk := fun _ _ => false }

/-- A card that acknowledges every command and returns CSD `csdVec` for
every 16-byte block receive. -/
def oC7vec : Oracle :=
  { cmdResp := fun _ _ _ _ => 0
    recvSDData := fun _ _ _ => []
    recvBlockOk := fun _ _ _ => true
    recvBlockData := fun _ _ _ => csdVec
    sendBlockOk := fun _ _ _ => false
    selectOk := fun _ _ => false }

/-- A card that acknowledges every command, accepts every 0xFC data block
and rejects the 0xFD stop token. -/
def oC8 : Oracle :=
  { cmdResp := fun _ _ _ _ => 0
    recvSDData := fun _ _ _ => []
    recvBlockOk := fun _ _ _ => false
    recvBlockData := fun _ _ _ => []
    sendBlockOk := fun _ _ tok => tok == 0xfc
    selectOk := fun _ _ => false }

/-- An SDv2 card that becomes ready on the fourth ACMD41 polling attempt:
starting from `initSt`, the polling attempts are global steps 104, 105,
106, ... and the card answers 0 from step 107 on; CMD58 returns byte0 =
0x40 (block addressing). -/
def oC9 : Oracle :=
  { cmdResp := fun st _ c _ =>
      if c == 0 then 1
      else if c == 8 then 1
      else if c == ACMD41 then (if st < 107 then 1 else 0)
      else 0
    recvSDData := fun _ _ _ => [0x40, 0, 0x01, 0xAA]
    recvBlockOk := fun _ _ _ => false
    recvBlockData := fun _ _ _ => []
    sendBlockOk := fun _ _ _ => false
    selectOk := fun _ _ => false }

/-- A card that acknowledges CMD25 but rejects every other command and
every data block, including the 0xFD stop token. -/
def oC10 : Oracle :=
  { cmdResp := fun _ _ c _ => if c == 25 then 0 else 7
    recvSDData := fun _ _ _ => []
    recvBlockOk := fun _ _ _ => false
    recvBlockData := fun _ _ _ => []
    sendBlockOk := fun _ _ _ => false
    selectOk := fun _ _ => false }

/-! ## Basic lemmas about the primitives -/

@[simp] theorem step_record (e : Ev) (s : SDState) :
    (record e s).step = s.step + 1 := rfl

@[simp] theorem cardType_record (e : Ev) (s : SDState) :
    (record e s).cardType = s.cardType := rfl

@[simp] theorem trace_record (e : Ev) (s : SDState) :
    (record e s).trace = e :: s.trace := rfl

@[simp] theorem relCount_record (p : Nat) (e : Ev) (s : SDState) :
    relCount p (record e s) = relCount p s + (if isRelease p e then 1 else 0) := by
  simp [relCount, record, List.countP_cons]

@[simp] theorem recvBlockCount_record (p : Nat) (e : Ev) (s : SDState) :
    recvBlockCount p (record e s) =
      recvBlockCount p s + (if isRecvBlock p e then 1 else 0) := by
  simp [recvBlockCount, record, List.countP_cons]

@[simp] theorem dataBlockCount_record (p : Nat) (e : Ev) (s : SDState) :
    dataBlockCount p (record e s) =
      dataBlockCount p s + (if isDataBlock p e then 1 else 0) := by
  simp [dataBlockCount, record, List.countP_cons]

/-! ## Loop lemmas -/

theorem initRecvLoop_cardType (o : Oracle) (p : Nat) :
    ∀ n s, (initRecvLoop o p n s).cardType = s.cardType := by
  intro n
  induction n with
  | zero => intro s; rfl
  | succ k ih => intro s; simp [initRecvLoop, ReceiveSD, ih]

theorem initRecvLoop_step (o : Oracle) (p : Nat) :
    ∀ n s, (initRecvLoop o p n s).step = s.step + n := by
  intro n
  induction n with
  | zero => intro s; rfl
  | succ k ih => intro s; simp [initRecvLoop, ReceiveSD, ih]; omega

theorem initRecvLoop_relCount (o : Oracle) (p q : Nat) :
    ∀ n s, relCount q (initRecvLoop o p n s) = relCount q s := by
  intro n
  induction n with
  | zero => intro s; rfl
  | succ k ih => intro s; simp [initRecvLoop, ReceiveSD, ih, isRelease]

theorem initPoll_cardType (o : Oracle) (p c arg : Nat) :
    ∀ fuel i s, ((initPoll o p c arg fuel i s).2).cardType = s.cardType := by
  intro fuel
  induction fuel with
  | zero => intro i s; rfl
  | succ k ih =>
      intro i s
      simp only [initPoll, SendCommand]
      split
      · rfl
      · simp [ih]

theorem initPoll_relCount (o : Oracle) (p c arg q : Nat) :
    ∀ fuel i s, relCount q ((initPoll o p c arg fuel i s).2) = relCount q s := by
  intro fuel
  induction fuel with
  | zero => intro i s; rfl
  | succ k ih =>
      intro i s
      simp only [initPoll, SendCommand]
      split
      · simp [isRelease]
      · simp [ih, isRelease]

/-- If the polled command never answers 0, the loop runs its fuel out and
the loop counter ends at `i + fuel`. -/
theorem initPoll_never (o : Oracle) (p c arg : Nat)
    (h : ∀ st, o.cmdResp st p c arg ≠ 0) :
    ∀ fuel i s, (initPoll o p c arg fuel i s).1 = i + fuel := by
  intro fuel
  induction fuel with
  | zero => intro i s; rfl
  | succ k ih =>
      intro i s
      have hb : (o.cmdResp s.step p c arg == 0) = false := by
        simpa using h s.step
      simp only [initPoll, SendCommand, hb, Bool.false_eq_true, if_false]
      rw [ih]
      omega

/-- If the polled command first answers 0 on the `n`-th attempt, the loop
breaks there with counter `i + n`. -/
theorem initPoll_ready (o : Oracle) (p c arg : Nat) :
    ∀ n fuel i s, n < fuel →
      (∀ k, k < n → o.cmdResp (s.step + k) p c arg ≠ 0) →
      o.cmdResp (s.step + n) p c arg = 0 →
      (initPoll o p c arg fuel i s).1 = i + n := by
  intro n
  induction n with
  | zero =>
      intro fuel i s hf _ hr
      obtain ⟨f, rfl⟩ : ∃ f, fuel = f + 1 := ⟨fuel - 1, by omega⟩
      have hb : (o.cmdResp s.step p c arg == 0) = true := by
        simpa using hr
      simp [initPoll, SendCommand, hb]
  | succ m ih =>
      intro fuel i s hf hbefore hr
      obtain ⟨f, rfl⟩ : ∃ f, fuel = f + 1 := ⟨fuel - 1, by omega⟩
      have h0 : (o.cmdResp s.step p c arg == 0) = false := by
        simpa using hbefore 0 (Nat.succ_pos m)
      simp only [initPoll, SendCommand, h0, Bool.false_eq_true, if_false]
      have := ih f (i + 1) (record (.cmd p c arg) s) (by omega)
        (fun k hk => by
          have := hbefore (k + 1) (by omega)
          simpa [Nat.add_assoc, Nat.add_comm 1 k] using this)
        (by
          have := hr
          simpa [Nat.add_assoc, Nat.add_comm 1 m] using this)
      rw [this]
      omega

/-! ## Claim theorems -/

@[simp] theorem relCount_EnableSD (p q : Nat) (s : SDState) :
    relCount q (EnableSD p s) = relCount q s := by
  simp [EnableSD, isRelease]

@[simp] theorem relCount_SelectSD (o : Oracle) (p q : Nat) (s : SDState) :
    relCount q ((SelectSD o p s).2) = relCount q s := by
  simp [SelectSD, isRelease]

@[simp] theorem relCount_SendCommand (o : Oracle) (p c a q : Nat) (s : SDState) :
    relCount q ((SendCommand o p c a s).2) = relCount q s := by
  simp [SendCommand, isRelease]

@[simp] theorem relCount_ReceiveSD (o : Oracle) (p len q : Nat) (s : SDState) :
    relCount q ((ReceiveSD o p len s).2) = relCount q s := by
  simp [ReceiveSD, isRelease]

@[simp] theorem relCount_ReceiveBlock (o : Oracle) (p len q : Nat) (s : SDState) :
    relCount q ((ReceiveBlock o p len s).2) = relCount q s := by
  simp [ReceiveBlock, isRelease]

@[simp] theorem relCount_SendBlock (o : Oracle) (p tok q : Nat) (s : SDState) :
    relCount q ((SendBlock o p tok s).2) = relCount q s := by
  simp [SendBlock, isRelease]

@[simp] theorem relCount_ReleaseSD_self (p : Nat) (s : SDState) :
    relCount p (ReleaseSD p s) = relCount p s + 1 := by
  simp [ReleaseSD, isRelease]

@[simp] theorem finishInit_fst (p ty : Nat) (s : SDState) :
    (finishInit p ty s).1 = if ty == 0 then STA_NOINIT else 0 := rfl

@[simp] theorem finishInit_cardType (p ty : Nat) (s : SDState) :
    ((finishInit p ty s).2).cardType = ty := rfl

@[simp] theorem readLoop_relCount (o : Oracle) (p q : Nat) :
    ∀ rem i buff s, relCount q ((readLoop o p rem i buff s).2) = relCount q s := by
  intro rem
  induction rem with
  | zero => intro i buff s; rfl
  | succ k ih =>
      intro i buff s
      simp only [readLoop]
      split
      · rw [ih]; simp
      · simp

@[simp] theorem writeLoop_relCount (o : Oracle) (p q : Nat) :
    ∀ rem i buff s, relCount q ((writeLoop o p rem i buff s).2) = relCount q s := by
  intro rem
  induction rem with
  | zero => intro i buff s; rfl
  | succ k ih =>
      intro i buff s
      simp only [writeLoop]
      split
      · rw [ih]; simp
      · simp

/-! ## Lemmas about `atoi` and the connection-string walk -/

theorem beq_false_of_digit (c d : Char) (h : c.isDigit = true)
    (hd : d.isDigit = false) : (c == d) = false := by
  apply beq_eq_false_iff_ne.mpr
  intro e
  subst e
  rw [h] at hd
  exact absurd hd (by decide)

/-- A digit is not leading whitespace for `atoi`. -/
theorem atoiSkipWs_cons_digit (c : Char) (l : List Char) (h : c.isDigit = true) :
    atoiSkipWs (c :: l) = c :: l := by
  unfold atoiSkipWs
  rw [List.dropWhile_cons,
    beq_false_of_digit c ' ' h (by decide),
    beq_false_of_digit c '\t' h (by decide),
    beq_false_of_digit c '\n' h (by decide),
    beq_false_of_digit c '\x0b' h (by decide),
    beq_false_of_digit c '\x0c' h (by decide),
    beq_false_of_digit c '\r' h (by decide)]
  simp

/-- `atoiDigits` stops at the first non-digit. -/
theorem atoiDigits_append_stop (d : Char) (hd : d.isDigit = false) :
    ∀ (b : List Char) (r : List Char) (acc : Nat), (∀ c ∈ b, c.isDigit = true) →
      atoiDigits (b ++ d :: r) acc = atoiDigits b acc := by
  intro b
  induction b with
  | nil => intro r acc _; simp [atoiDigits, hd]
  | cons c b' ih =>
      intro r acc hb
      have hc : c.isDigit = true := hb c (by simp)
      simp only [List.cons_append, atoiDigits, hc, if_true]
      exact ih r _ fun x hx => hb x (by simp [hx])

/-- `atoi` of an all-digit field equals its decimal value. -/
theorem atoi_digits (b : List Char) (hb : ∀ c ∈ b, c.isDigit = true) :
    atoi b = (atoiDigits b 0 : Int) := by
  cases b with
  | nil => simp [atoi, atoiSkipWs, atoiSigned, atoiDigits]
  | cons c b' =>
      have hc : c.isDigit = true := hb c (by simp)
      rw [atoi, atoiSkipWs_cons_digit c b' hc]
      simp only [atoiSigned,
        beq_false_of_digit c '-' hc (by decide),
        beq_false_of_digit c '+' hc (by decide),
        Bool.false_eq_true, if_false]

/-- `atoi` of an all-digit field followed by a comma equals the field's
decimal value; in particular an empty field parses to 0. -/
theorem atoi_digits_comma (b r : List Char) (hb : ∀ c ∈ b, c.isDigit = true) :
    atoi (b ++ ',' :: r) = (atoiDigits b 0 : Int) := by
  cases b with
  | nil =>
      simp only [List.nil_append]
      rw [atoi]
      have hsk : atoiSkipWs (',' :: r) = ',' :: r := by
        unfold atoiSkipWs
        rw [List.dropWhile_cons]
        simp
      rw [hsk]
      simp only [atoiSigned]
      norm_num
      simp [atoiDigits]
  | cons c b' =>
      have hc : c.isDigit = true := hb c (by simp)
      rw [atoi, List.cons_append, atoiSkipWs_cons_digit c _ hc]
      simp only [atoiSigned,
        beq_false_of_digit c '-' hc (by decide),
        beq_false_of_digit c '+' hc (by decide),
        Bool.false_eq_true, if_false]
      rw [← List.cons_append,
        atoiDigits_append_stop ',' (by decide) (c :: b') r 0 hb]

/-- The `while (*name && *name != ',') name++;` walk over an all-digit
field lands on the following comma. -/
theorem dropWhile_digits_comma (b r : List Char)
    (hb : ∀ c ∈ b, c.isDigit = true) :
    (b ++ ',' :: r).dropWhile (fun c => !(c == ',')) = ',' :: r := by
  induction b with
  | nil => simp [List.dropWhile_cons]
  | cons c b' ih =>
      have hc : (c == ',') = false :=
        beq_false_of_digit c ',' (hb c (by simp)) (by decide)
      simp only [List.cons_append, List.dropWhile_cons, hc, Bool.not_false,
        if_true]
      exact ih fun x hx => hb x (by simp [hx])

/-- The walk over an all-digit field with no comma runs to the end. -/
theorem dropWhile_digits_nil (b : List Char) (hb : ∀ c ∈ b, c.isDigit = true) :
    b.dropWhile (fun c => !(c == ',')) = [] := by
  induction b with
  | nil => rfl
  | cons c b' ih =>
      have hc : (c == ',') = false :=
        beq_false_of_digit c ',' (hb c (by simp)) (by decide)
      simp only [List.dropWhile_cons, hc, Bool.not_false, if_true]
      exact ih fun x hx => hb x (by simp [hx])

theorem cuint_natCast (n : Nat) : cuint (n : Int) = n % 2 ^ 32 := by
  unfold cuint
  omega

set_option maxRecDepth 8000 in
/-- Claim C1: for every byte `b` in `[0,255]`, the waveform emitted by
`_serial_putbyte` (the 10-bit frame `(b | 0x100) << 1`, LSB first) sampled
back by `_serial_getbyte` (8 samples after the start bit, accumulated as
`value = (sample << 7) | (value >> 1)`) reproduces `b` exactly. -/
theorem C1_serial_roundtrip :
    ∀ b : Fin 256, serial_getbyte (txLine b.val) = b.val := by decide

/-- Claim C4, counterexample: with compiled-in defaults baud 230400, rx pin
63, tx pin 62, the connection string ",5" leaves the baud field unset
(empty before the first comma), yet `_serial_fopen` sets baud to
`atoi(",5") = 0` — not the default 230400 — and parses 5 as the rx pin. -/
theorem C4_counterexample :
    serial_fopen 230400 63 62 [',', '5'] = (0, 5, 62, 0) ∧
      (serial_fopen 230400 63 62 [',', '5']).1 ≠ 230400 := by decide

/-- Claim C4 (amended): `_serial_fopen` parses "baud[,rxpin[,txpin]]" left
to right and always returns the success code 0; fields missing at the tail
fall back to the compiled-in defaults, but a field that is present and
empty (e.g. an empty baud field before the first comma) parses via `atoi`
to 0, not to the default.  `b`, `r`, `t` range over digit-only fields, so
`atoiDigits x 0` is the decimal value of `x` (0 when empty). -/
theorem C4_fopen_parse (defB defR defT : Nat) (b r t : List Char)
    (hb : ∀ c ∈ b, c.isDigit = true) (hr : ∀ c ∈ r, c.isDigit = true)
    (ht : ∀ c ∈ t, c.isDigit = true) :
    (∀ name, (serial_fopen defB defR defT name).2.2.2 = 0)
    ∧ serial_fopen defB defR defT [] = (defB, defR, defT, 0)
    ∧ (b ≠ [] → serial_fopen defB defR defT b =
        (atoiDigits b 0 % 2 ^ 32, defR, defT, 0))
    ∧ serial_fopen defB defR defT (b ++ ',' :: r) =
        (atoiDigits b 0 % 2 ^ 32, atoiDigits r 0 % 2 ^ 32, defT, 0)
    ∧ serial_fopen defB defR defT (b ++ ',' :: (r ++ ',' :: t)) =
        (atoiDigits b 0 % 2 ^ 32, atoiDigits r 0 % 2 ^ 32,
          atoiDigits t 0 % 2 ^ 32, 0) := by
  refine ⟨?_, rfl, ?_, ?_, ?_⟩
  · intro name
    simp only [serial_fopen]
    split
    · rfl
    · split
      · rfl
      · split <;> rfl
  · intro hbne
    have hne : b.isEmpty = false := by
      cases b with
      | nil => exact absurd rfl hbne
      | cons c b' => rfl
    simp only [serial_fopen, hne, Bool.false_eq_true, if_false,
      dropWhile_digits_nil b hb, atoi_digits b hb, cuint_natCast]
  · have hne : (b ++ ',' :: r).isEmpty = false := by cases b <;> rfl
    simp only [serial_fopen, hne, Bool.false_eq_true, if_false,
      atoi_digits_comma b r hb, dropWhile_digits_comma b r hb,
      atoi_digits r hr, dropWhile_digits_nil r hr, cuint_natCast]
  · have hne : (b ++ ',' :: (r ++ ',' :: t)).isEmpty = false := by
      cases b <;> rfl
    simp only [serial_fopen, hne, Bool.false_eq_true, if_false,
      atoi_digits_comma b (r ++ ',' :: t) hb,
      dropWhile_digits_comma b (r ++ ',' :: t) hb,
      atoi_digits_comma r t hr, dropWhile_digits_comma r t hr,
      atoi_digits t ht, dropWhile_digits_nil t ht, cuint_natCast]

/-- Witness for `C4_fopen_parse` at the string "42,7" with defaults
230400/63/62. -/
theorem C4_fopen_parse_witness :
    serial_fopen 230400 63 62 ['4', '2', ',', '7'] = (42, 7, 62, 0) :=
  (C4_fopen_parse 230400 63 62 ['4', '2'] ['7'] []
    (by decide) (by decide) (by decide)).2.2.2.1

/-- Claim C5: on every execution path — success or failure — `disk_read`,
`disk_write` and `disk_ioctl` perform the chip-select release
`ReleaseSD(pdrv)` exactly once before returning: the count of release
events for the drive grows by exactly one. -/
theorem C5_release_once (o : Oracle) (pdrv buff sector count ctrl : Nat)
    (s : SDState) :
    relCount pdrv ((disk_read o pdrv buff sector count s).2) = relCount pdrv s + 1
    ∧ relCount pdrv ((disk_write o pdrv buff sector count s).2) = relCount pdrv s + 1
    ∧ relCount pdrv ((disk_ioctl o pdrv ctrl s).2) = relCount pdrv s + 1 := by
  refine ⟨?_, ?_, ?_⟩
  · simp only [disk_read]
    repeat' split
    all_goals simp
  · simp only [disk_write]
    repeat' split
    all_goals simp
  · simp only [disk_ioctl]
    repeat' split
    all_goals simp

/-- Claim C6: when the card's initialization command never reports ready —
every ACMD41 response (any argument) and every CMD1 response is nonzero —
the 10000-attempt polling loop exhausts, `disk_initialize` leaves the card
type at 0 and returns `STA_NOINIT`, on both the SDv2 path and the legacy
(SDv1/MMC) path. -/
theorem C6_poll_exhaust (o : Oracle) (pdrv : Nat) (s : SDState)
    (hA : ∀ st arg, o.cmdResp st pdrv ACMD41 arg ≠ 0)
    (hM : ∀ st, o.cmdResp st pdrv CMD1 0 ≠ 0) :
    ( disk_initialize o pdrv s).1 = STA_NOINIT
    ∧ (( disk_initialize o pdrv s).2).cardType = 0 := by
  suffices h : ∃ st, disk_initialize o pdrv s = finishInit pdrv 0 st by
    obtain ⟨st, hst⟩ := h
    rw [hst]
    exact ⟨rfl, rfl⟩
  have h41 : ∀ st, o.cmdResp st pdrv ACMD41 (1 <<< 30) ≠ 0 := fun st => hA st _
  have h410 : ∀ st, o.cmdResp st pdrv ACMD41 0 ≠ 0 := fun st => hA st 0
  simp only [ disk_initialize]
  split
  · split
    · split
      · rw [initPoll_never o pdrv ACMD41 (1 <<< 30) h41 10000 0 _]
        norm_num
      · exact ⟨_, rfl⟩
    · split
      · rw [initPoll_never o pdrv ACMD41 0 h410 10000 0 _]
        norm_num
      · rw [initPoll_never o pdrv CMD1 0 hM 10000 0 _]
        norm_num
  · exact ⟨_, rfl⟩

/-- Witness for `C6_poll_exhaust`: the card `oNever` (always answering 1)
leaves the card type 0 and yields `STA_NOINIT`. -/
theorem C6_poll_exhaust_witness :
    ( disk_initialize oNever 0 initSt).1 = STA_NOINIT
    ∧ (( disk_initialize oNever 0 initSt).2).cardType = 0 :=
  C6_poll_exhaust oNever 0 initSt (fun _ _ => Nat.one_ne_zero)
    (fun _ => Nat.one_ne_zero)

/-- Claim C9: a card that acknowledges CMD0 and CMD8 (4-byte reply echoing
0x01/0xAA in bytes 2 and 3), becomes ready under ACMD41 with argument
`1 <<< 30` at polling attempt `n < 10000` (the prefix of `disk_initialize`
makes 104 transport calls, so attempt `k` is global step `s.step + 104 + k`),
and acknowledges CMD58 with response byte 0 equal to `r0`, is classified as
SDv2, with the block-addressing bit set iff bit 6 (0x40) of `r0` is set;
initialization reports success. -/
theorem C9_sdv2_classification (o : Oracle) (pdrv n r0 r1 : Nat) (s : SDState)
    (hn : n < 10000)
    (h0 : ∀ st, o.cmdResp st pdrv CMD0 0 = 1)
    (h8 : ∀ st, o.cmdResp st pdrv CMD8 0x1AA = 1)
    (hrv : ∀ st, o.recvSDData st pdrv 4 = [r0, r1, 0x01, 0xAA])
    (hb : ∀ k, k < n → o.cmdResp (s.step + 104 + k) pdrv ACMD41 (1 <<< 30) ≠ 0)
    (hrdy : o.cmdResp (s.step + 104 + n) pdrv ACMD41 (1 <<< 30) = 0)
    (h58 : ∀ st, o.cmdResp st pdrv CMD58 0 = 0) :
    ( disk_initialize o pdrv s).1 = 0
    ∧ (( disk_initialize o pdrv s).2).cardType &&& CT_SDC2 = CT_SDC2
    ∧ ((( disk_initialize o pdrv s).2).cardType &&& CT_BLOCK = CT_BLOCK
        ↔ r0 &&& 0x40 ≠ 0) := by
  simp only [ disk_initialize]
  set s2 := initRecvLoop o pdrv 100 (EnableSD pdrv s) with hs2
  have hs2step : s2.step = s.step + 101 := by
    rw [hs2, initRecvLoop_step]
    simp [EnableSD]
  set p0 := SendCommand o pdrv CMD0 0 s2 with hp0
  have hp0r : p0.1 = 1 := by rw [hp0]; exact h0 s2.step
  have hp0step : p0.2.step = s.step + 102 := by
    rw [hp0]
    simp [SendCommand, hs2step]
  rw [hp0r]
  simp only [beq_self_eq_true, if_true]
  set p8 := SendCommand o pdrv CMD8 0x1AA p0.2 with hp8
  have hp8r : p8.1 = 1 := by rw [hp8]; exact h8 p0.2.step
  have hp8step : p8.2.step = s.step + 103 := by
    rw [hp8]
    simp [SendCommand, hp0step]
  rw [hp8r]
  simp only [beq_self_eq_true, if_true]
  set pr := ReceiveSD o pdrv 4 p8.2 with hpr
  have hprv : pr.1 = [r0, r1, 0x01, 0xAA] := by rw [hpr]; exact hrv p8.2.step
  have hprstep : pr.2.step = s.step + 104 := by
    rw [hpr]
    simp [ReceiveSD, hp8step]
  rw [hprv, if_pos (show (([r0, r1, (0x01 : Nat), 0xAA].getD 2 0 == 0x01) &&
    ([r0, r1, (0x01 : Nat), 0xAA].getD 3 0 == 0xAA)) = true from rfl)]
  have hpoll := initPoll_ready o pdrv ACMD41 (1 <<< 30) n 10000 0 pr.2 hn
    (fun k hk => by rw [hprstep]; exact hb k hk)
    (by rw [hprstep]; exact hrdy)
  rw [hpoll, if_pos (by omega : 0 + n < 10000)]
  set pp := initPoll o pdrv ACMD41 (1 <<< 30) 10000 0 pr.2 with hpp
  set p58 := SendCommand o pdrv CMD58 0 pp.2 with hp58
  have hp58r : p58.1 = 0 := by rw [hp58]; exact h58 pp.2.step
  rw [hp58r]
  simp only [beq_self_eq_true, if_true]
  set pr2 := ReceiveSD o pdrv 4 p58.2 with hpr2
  have hprv2 : pr2.1 = [r0, r1, 0x01, 0xAA] := by rw [hpr2]; exact hrv p58.2.step
  rw [hprv2, show ([r0, r1, (0x01 : Nat), 0xAA].getD 0 0) = r0 from rfl]
  by_cases hbit : r0 &&& 0x40 = 0
  · rw [if_pos (show ((r0 &&& 0x40 == 0) = true) by simp [hbit])]
    refine ⟨rfl, by rw [finishInit_cardType]; decide, ?_⟩
    rw [finishInit_cardType]
    constructor
    · intro h
      exact absurd h (by decide)
    · intro h
      exact absurd hbit h
  · rw [if_neg (show ¬((r0 &&& 0x40 == 0) = true) by simp [hbit])]
    refine ⟨rfl, by rw [finishInit_cardType]; decide, ?_⟩
    rw [finishInit_cardType]
    constructor
    · intro _
      exact hbit
    · intro _
      decide

/-- Witness for `C9_sdv2_classification`: the card `oC9` (ready on the
fourth ACMD41 attempt, CMD58 byte0 = 0x40) is classified SDv2 with the
block-addressing bit set. -/
theorem C9_sdv2_classification_witness :
    ( disk_initialize oC9 0 initSt).1 = 0
    ∧ (( disk_initialize oC9 0 initSt).2).cardType &&& CT_SDC2 = CT_SDC2
    ∧ ((( disk_initialize oC9 0 initSt).2).cardType &&& CT_BLOCK = CT_BLOCK
        ↔ (0x40 : Nat) &&& 0x40 ≠ 0) :=
  C9_sdv2_classification oC9 0 3 0x40 0 initSt (by decide)
    (fun _ => rfl) (fun _ => rfl) (fun _ => rfl)
    (by decide) (by decide) (fun _ => rfl)

/-! ## Trace-membership lemmas -/

theorem readLoop_trace_mem (o : Oracle) (p : Nat) (e : Ev) :
    ∀ rem i buff s, e ∈ s.trace → e ∈ (((readLoop o p rem i buff s).2)).trace := by
  intro rem
  induction rem with
  | zero => intro i buff s h; exact h
  | succ k ih =>
      intro i buff s h
      simp only [readLoop]
      split
      · exact ih _ _ _ (List.mem_cons_of_mem _ h)
      · exact List.mem_cons_of_mem _ h

theorem writeLoop_trace_mem (o : Oracle) (p : Nat) (e : Ev) :
    ∀ rem i buff s, e ∈ s.trace → e ∈ (((writeLoop o p rem i buff s).2)).trace := by
  intro rem
  induction rem with
  | zero => intro i buff s h; exact h
  | succ k ih =>
      intro i buff s h
      simp only [writeLoop]
      split
      · exact ih _ _ _ (List.mem_cons_of_mem _ h)
      · exact List.mem_cons_of_mem _ h

/-- `disk_read` always sends its block-read command (CMD18 for multi-block,
CMD17 otherwise) with the translated sector address, whatever the card
answers. -/
theorem disk_read_sends_cmd (o : Oracle) (pdrv buff sector count : Nat)
    (s : SDState) :
    Ev.cmd pdrv (if count > 1 then CMD18 else CMD17) (sectAddr s.cardType sector)
      ∈ ((disk_read o pdrv buff sector count s).2).trace := by
  simp only [disk_read]
  repeat' split
  all_goals simp only [ReleaseSD, SendCommand, trace_record, List.mem_cons]
  all_goals
    first
      | (simp; done)
      | (refine Or.inr (Or.inr ?_)
         apply readLoop_trace_mem
         simp [record])
      | (refine Or.inr ?_
         apply readLoop_trace_mem
         simp [record])

/-- `disk_write` always sends its block-write command (CMD24 for a single
sector, CMD25 otherwise) with the translated sector address. -/
theorem disk_write_sends_cmd (o : Oracle) (pdrv buff sector count : Nat)
    (s : SDState) :
    Ev.cmd pdrv (if count == 1 then CMD24 else CMD25) (sectAddr s.cardType sector)
      ∈ ((disk_write o pdrv buff sector count s).2).trace := by
  simp only [disk_write]
  repeat' split
  all_goals simp only [ReleaseSD, SendCommand, SendBlock, trace_record,
    List.mem_cons]
  all_goals
    first
      | (simp; done)
      | (refine Or.inr (Or.inr ?_)
         apply writeLoop_trace_mem
         simp [record])

/-- On a multi-sector write (count not 1) with an SD-family stored card
type, `disk_write` pre-announces the sector count with ACMD23 — whatever
the card answers afterwards. -/
theorem disk_write_sends_acmd23 (o : Oracle) (pdrv buff sector count : Nat)
    (s : SDState) (hsd : s.cardType &&& CT_SDC ≠ 0) (hc : count ≠ 1) :
    Ev.cmd pdrv ACMD23 count
      ∈ ((disk_write o pdrv buff sector count s).2).trace := by
  have hc1 : (count == 1) = false := by simpa using hc
  simp only [disk_write, hc1, Bool.false_eq_true, if_false]
  rw [if_pos (show ((s.cardType &&& CT_SDC != 0) = true) by simpa using hsd)]
  split
  all_goals simp only [ReleaseSD, SendCommand, SendBlock, trace_record,
    List.mem_cons]
  all_goals
    first
      | (simp [record]; done)
      | (refine Or.inr (Or.inr ?_)
         apply writeLoop_trace_mem
         simp [record])

/-- Claim C2, counterexample: a Read with count = 2 issues the multi-block
command CMD18, but when the card rejects CMD18 (response 5, never 0) the
stop-transmission command CMD12 is *not* sent on that path: the whole trace
is just the CMD18 attempt and the chip-select release. -/
theorem C2_counterexample :
    ((disk_read oReject 0 0 0 2 initSt).2).trace =
      [Ev.release 0, Ev.cmd 0 CMD18 0]
    ∧ Ev.cmd 0 CMD12 0 ∉ ((disk_read oReject 0 0 0 2 initSt).2).trace := by
  decide

/-- Claim C2 (amended): in every Read with count > 1, CMD18 is issued, and
*provided CMD18 is acknowledged* (response 0) the stop-transmission command
CMD12 is sent afterward on every path — regardless of how many block
receives fail; when CMD18 is rejected the loop and CMD12 are skipped. -/
theorem C2_cmd12_after_ack (o : Oracle) (pdrv buff sector count : Nat)
    (s : SDState) (hc : 1 < count)
    (h18 : ∀ st a, o.cmdResp st pdrv CMD18 a = 0) :
    Ev.cmd pdrv CMD12 0 ∈ ((disk_read o pdrv buff sector count s).2).trace := by
  simp only [disk_read]
  rw [if_pos hc]
  have hr : (SendCommand o pdrv CMD18 (sectAddr s.cardType sector) s).1 = 0 :=
    h18 _ _
  rw [hr]
  simp only [beq_self_eq_true, if_true]
  exact List.mem_cons_of_mem _ (List.mem_cons_self _ _)

/-- Witness for `C2_cmd12_after_ack`: with the always-acknowledging
transport `oAck` (which still fails every block receive), a count-2 read
sends CMD12. -/
theorem C2_cmd12_after_ack_witness :
    Ev.cmd 0 CMD12 0 ∈ ((disk_read oAck 0 0 0 2 initSt).2).trace :=
  C2_cmd12_after_ack oAck 0 0 0 2 initSt (by decide) (fun _ _ => rfl)

set_option maxRecDepth 100000 in
/-- Claim C3, counterexample: `CardType` is a single `static char`, not
per-drive state.  With `oC3`, Initialize(0) classifies drive 0 as
SDv2 + block addressing (card type 12), so a Read of sector 3 on drive 0
sends CMD17 with argument 3; after Initialize(1) — whose card fails CMD0 —
the shared card type becomes 0, and the same Read on drive 0 now sends
CMD17 with byte address 3 * 512 = 1536.  Initialize(1) changed the card
type used by drive 0. -/
theorem C3_counterexample :
    (( disk_initialize oC3 0 initSt).2).cardType = CT_SDC2 ||| CT_BLOCK
    ∧ (( disk_initialize oC3 1 ( disk_initialize oC3 0 initSt).2).2).cardType = 0
    ∧ Ev.cmd 0 CMD17 3 ∈
        ((disk_read oC3 0 0 3 1 ( disk_initialize oC3 0 initSt).2).2).trace
    ∧ Ev.cmd 0 CMD17 1536 ∈
        ((disk_read oC3 0 0 3 1
          ( disk_initialize oC3 1 ( disk_initialize oC3 0 initSt).2).2).2).trace := by
  decide

/-- Claim C3 (amended): the card-type classification is process-wide and
shared by all drives, not scoped to the drive index: after Initialize(d1),
a Read or Write on any drive d2 — over any transport — issues its block
command using the card type stored by that initialization for sector
addressing (block addressing iff its `CT_BLOCK` bit), and a multi-sector
Write pre-announces the count with ACMD23 iff that shared card type has an
SD-family bit. -/
theorem C3_cardtype_shared (o o2 : Oracle) (d1 d2 buff sector count : Nat)
    (s : SDState) :
    Ev.cmd d2 (if count > 1 then CMD18 else CMD17)
        (sectAddr (( disk_initialize o d1 s).2).cardType sector)
      ∈ ((disk_read o2 d2 buff sector count ( disk_initialize o d1 s).2).2).trace
    ∧ Ev.cmd d2 (if count == 1 then CMD24 else CMD25)
        (sectAddr (( disk_initialize o d1 s).2).cardType sector)
      ∈ ((disk_write o2 d2 buff sector count ( disk_initialize o d1 s).2).2).trace
    ∧ ((( disk_initialize o d1 s).2).cardType &&& CT_SDC ≠ 0 → count ≠ 1 →
        Ev.cmd d2 ACMD23 count
          ∈ ((disk_write o2 d2 buff sector count ( disk_initialize o d1 s).2).2).trace) :=
  ⟨disk_read_sends_cmd o2 d2 buff sector count ( disk_initialize o d1 s).2,
    disk_write_sends_cmd o2 d2 buff sector count ( disk_initialize o d1 s).2,
    fun hsd hc =>
      disk_write_sends_acmd23 o2 d2 buff sector count ( disk_initialize o d1 s).2
        hsd hc⟩

set_option maxRecDepth 100000 in
/-- Witness for `C3_cardtype_shared`: after Initialize(0) with `oC3`
(stored shared type SDv2 + block addressing), a count-2 read and write on
*drive 1* use that type: CMD18/CMD25 carry the block-addressed sector 5,
and ACMD23 is sent because the shared type is SD-family. -/
theorem C3_cardtype_shared_witness :
    Ev.cmd 1 CMD18 (sectAddr (( disk_initialize oC3 0 initSt).2).cardType 5)
      ∈ ((disk_read oC3 1 0 5 2 ( disk_initialize oC3 0 initSt).2).2).trace
    ∧ Ev.cmd 1 CMD25 (sectAddr (( disk_initialize oC3 0 initSt).2).cardType 5)
      ∈ ((disk_write oC3 1 0 5 2 ( disk_initialize oC3 0 initSt).2).2).trace
    ∧ Ev.cmd 1 ACMD23 2
      ∈ ((disk_write oC3 1 0 5 2 ( disk_initialize oC3 0 initSt).2).2).trace := by
  obtain ⟨h1, h2, h3⟩ := C3_cardtype_shared oC3 oC3 0 1 0 5 2 initSt
  exact ⟨by simpa using h1, by simpa using h2, h3 (by decide) (by decide)⟩

/-! ## C7: GET_SECTOR_COUNT -/

/-- Claim C7, counterexample: for the version-1 CSD `csdOver`
(bit 5 of byte 0 set, `csd[7..9] = {0x3F, 0xFF, 0xFF}`) the claimed stored
value `((csd[9] + (csd[8] << 8) + ((csd[7] & 63) << 16)) + 1) << 10`
is 2^32 = 4294967296, but `cs << 10` is computed in 32-bit unsigned
arithmetic, so the ioctl stores 0: the claim's universally quantified
formula fails at this CSD. -/
theorem C7_counterexample :
    (disk_ioctl oC7over 0 GET_SECTOR_COUNT initSt).1 = (DRESULT.ok, some 0)
    ∧ (csdOver.getD 9 0 + (csdOver.getD 8 0 <<< 8) +
        ((csdOver.getD 7 0 &&& 63) <<< 16) + 1) <<< 10 = 4294967296
    ∧ (disk_ioctl oC7over 0 GET_SECTOR_COUNT initSt).1.2 ≠ some 4294967296 := by
  decide

/-- Claim C7 (amended): for every 16-byte CSD with bit 5 of byte 0 set,
when CMD9 is acknowledged and the 16-byte block receive succeeds, the
GET_SECTOR_COUNT ioctl returns RES_OK and stores
`((csd[9] + (csd[8] << 8) + ((csd[7] & 63) << 16)) + 1) << 10` computed in
32-bit unsigned arithmetic (reduced mod 2^32 — equal to the plain formula
except at the single overflow corner of the counterexample); the claim's
vector `csd[7..9] = {0x3F, 0x00, 0x01}` yields `0x3F0002 << 10`. -/
theorem C7_sector_count (o : Oracle) (pdrv : Nat) (s : SDState) (csd : List Nat)
    (h9 : ∀ st, o.cmdResp st pdrv CMD9 0 = 0)
    (hok : ∀ st, o.recvBlockOk st pdrv 16 = true)
    (hdata : ∀ st, o.recvBlockData st pdrv 16 = csd)
    (hbit : csd.getD 0 0 &&& 0x20 ≠ 0) :
    (disk_ioctl o pdrv GET_SECTOR_COUNT s).1 =
      (DRESULT.ok, some ((csd.getD 9 0 + (csd.getD 8 0 <<< 8) +
        ((csd.getD 7 0 &&& 63) <<< 16) + 1) <<< 10 % 2 ^ 32)) := by
  simp only [disk_ioctl]
  rw [if_neg (show ¬((GET_SECTOR_COUNT == CTRL_SYNC) = true) by decide)]
  rw [if_pos (show ((GET_SECTOR_COUNT == GET_SECTOR_COUNT) = true) by decide)]
  have h9r : (SendCommand o pdrv CMD9 0 s).1 = 0 := h9 _
  rw [h9r]
  simp only [beq_self_eq_true, if_true]
  have hokr : ((ReceiveBlock o pdrv 16 (SendCommand o pdrv CMD9 0 s).2).1).1 = true :=
    hok _
  rw [hokr]
  simp only [if_true]
  have hdr : ((ReceiveBlock o pdrv 16 (SendCommand o pdrv CMD9 0 s).2).1).2 = csd :=
    hdata _
  rw [hdr]
  rw [if_pos (show ((csd.getD 0 0 &&& 0x20 != 0) = true) by simpa using hbit)]

/-- Witness for `C7_sector_count` at the claim's CSD vector: the stored
sector count is `0x3F0002 << 10`. -/
theorem C7_sector_count_witness :
    (disk_ioctl oC7vec 0 GET_SECTOR_COUNT initSt).1 =
      (DRESULT.ok, some ((0x3F0002 : Nat) <<< 10)) := by
  rw [C7_sector_count oC7vec 0 initSt csdVec (fun _ => rfl) (fun _ => rfl)
    (fun _ => rfl) (by decide)]
  decide

/-! ## C8: multi-block write stop token -/

/-- If every 0xFC data block is accepted, the write loop sends exactly
`rem` data blocks. -/
theorem writeLoop_all_dataBlocks (o : Oracle) (p : Nat)
    (h : ∀ st, o.sendBlockOk st p 0xfc = true) :
    ∀ rem i buff s, dataBlockCount p ((writeLoop o p rem i buff s).2) =
      dataBlockCount p s + rem := by
  intro rem
  induction rem with
  | zero => intro i buff s; simp [writeLoop]
  | succ k ih =>
      intro i buff s
      simp only [writeLoop, SendBlock, h, if_true]
      rw [ih, dataBlockCount_record]
      have hd : isDataBlock p (Ev.sendBlock p 0xfc) = true := by
        simp [isDataBlock]
      rw [hd]
      simp only [if_true]
      omega

/-- Claim C8: for every multi-sector write (count > 1) in which CMD25 is
acknowledged, the 0xFD stop token is sent after the per-sector loop, and if
the card rejects the stop token, the success counter is forced to 0, so the
operation returns `RES_ERROR` even though all `count` data blocks were sent
successfully (every 0xFC block accepted). -/
theorem C8_stop_token_rejected (o : Oracle) (pdrv buff sector count : Nat)
    (s : SDState) (hc : 1 < count)
    (h25 : ∀ st a, o.cmdResp st pdrv CMD25 a = 0)
    (hdata : ∀ st, o.sendBlockOk st pdrv 0xfc = true)
    (hstop : ∀ st, o.sendBlockOk st pdrv 0xfd = false) :
    (disk_write o pdrv buff sector count s).1 = DRESULT.error
    ∧ Ev.sendBlock pdrv 0xfd ∈
        ((disk_write o pdrv buff sector count s).2).trace
    ∧ dataBlockCount pdrv ((disk_write o pdrv buff sector count s).2) =
        dataBlockCount pdrv s + count := by
  have hcount1 : (count == 1) = false := by
    simp only [beq_eq_false_iff_ne]
    omega
  simp only [disk_write, hcount1, Bool.false_eq_true, if_false]
  split
  all_goals
    rw [show ∀ s1, (SendCommand o pdrv CMD25 (sectAddr s.cardType sector) s1).1 = 0
      from fun s1 => h25 _ _]
    simp only [beq_self_eq_true, if_true, SendBlock, hstop, Bool.false_eq_true,
      if_false]
    refine ⟨?_, ?_, ?_⟩
    · rw [show (count != 0) = true by simp only [bne_iff_ne]; omega]
      rfl
    · exact List.mem_cons_of_mem _ (List.mem_cons_self _ _)
    · simp only [ReleaseSD, dataBlockCount_record,
        writeLoop_all_dataBlocks o pdrv hdata count 0 buff _, SendCommand,
        isDataBlock]
      simp [isDataBlock]

/-- Witness for `C8_stop_token_rejected`: card `oC8` (acknowledges
everything, accepts 0xFC blocks, rejects the 0xFD stop token), count 2. -/
theorem C8_stop_token_rejected_witness :
    (disk_write oC8 0 0 0 2 initSt).1 = DRESULT.error
    ∧ Ev.sendBlock 0 0xfd ∈ ((disk_write oC8 0 0 0 2 initSt).2).trace
    ∧ dataBlockCount 0 ((disk_write oC8 0 0 0 2 initSt).2) =
        dataBlockCount 0 initSt + 2 :=
  C8_stop_token_rejected oC8 0 0 0 2 initSt (by decide) (fun _ _ => rfl)
    (fun _ => rfl) (fun _ => rfl)

/-! ## C10: zero-count transfers -/

/-- Claim C10, counterexample: a zero-count Write over a transport that
rejects every command still returns RES_OK and takes the multi-block branch
(CMD25 is issued), but since CMD25 is not acknowledged the 0xFD stop token
is *not* sent — so "the 0xFD stop token" part of the claim fails for this
transport behaviour. -/
theorem C10_counterexample :
    (disk_write oReject 0 0 0 0 initSt).1 = DRESULT.ok
    ∧ Ev.cmd 0 CMD25 0 ∈ ((disk_write oReject 0 0 0 0 initSt).2).trace
    ∧ Ev.sendBlock 0 0xfd ∉ ((disk_write oReject 0 0 0 0 initSt).2).trace := by
  decide

/-- Claim C10 (amended): for count = 0, on every drive, sector, stored card
type and transport behaviour, both Read and Write return RES_OK while
transferring no data: Read issues the single-block command CMD17 (count is
not > 1) and succeeds even if CMD17 is rejected, receiving no data block;
Write takes the multi-block branch — ACMD23 when the stored card type is
SD-family, then CMD25 — sends no data block, and succeeds regardless of
every response; the 0xFD stop token, whose rejection is also tolerated, is
sent only when CMD25 is acknowledged. -/
theorem C10_zero_count (o : Oracle) (pdrv buff sector : Nat) (s : SDState) :
    (disk_read o pdrv buff sector 0 s).1 = DRESULT.ok
    ∧ recvBlockCount pdrv ((disk_read o pdrv buff sector 0 s).2) =
        recvBlockCount pdrv s
    ∧ Ev.cmd pdrv CMD17 (sectAddr s.cardType sector) ∈
        ((disk_read o pdrv buff sector 0 s).2).trace
    ∧ (disk_write o pdrv buff sector 0 s).1 = DRESULT.ok
    ∧ dataBlockCount pdrv ((disk_write o pdrv buff sector 0 s).2) =
        dataBlockCount pdrv s
    ∧ Ev.cmd pdrv CMD25 (sectAddr s.cardType sector) ∈
        ((disk_write o pdrv buff sector 0 s).2).trace
    ∧ (s.cardType &&& CT_SDC ≠ 0 →
        Ev.cmd pdrv ACMD23 0 ∈ ((disk_write o pdrv buff sector 0 s).2).trace)
    ∧ ((∀ st a, o.cmdResp st pdrv CMD25 a = 0) →
        Ev.sendBlock pdrv 0xfd ∈ ((disk_write o pdrv buff sector 0 s).2).trace) := by
  refine ⟨?_, ?_, ?_, ?_, ?_, ?_, ?_, ?_⟩
  · simp only [disk_read]
    rw [if_neg (show ¬((0 : Nat) > 1) by omega)]
    split
    · rw [if_neg (show ¬((CMD17 == CMD18) = true) by decide)]
      simp [readLoop]
    · simp
  · simp only [disk_read]
    rw [if_neg (show ¬((0 : Nat) > 1) by omega)]
    split
    · rw [if_neg (show ¬((CMD17 == CMD18) = true) by decide)]
      simp [readLoop, ReleaseSD, SendCommand, isRecvBlock]
    · simp [ReleaseSD, SendCommand, isRecvBlock]
  · simpa using disk_read_sends_cmd o pdrv buff sector 0 s
  · simp only [disk_write]
    rw [if_neg (show ¬(((0 : Nat) == 1) = true) by decide)]
    repeat' split
    all_goals simp_all [writeLoop]
  · simp only [disk_write]
    rw [if_neg (show ¬(((0 : Nat) == 1) = true) by decide)]
    repeat' split
    all_goals simp [writeLoop, ReleaseSD, SendCommand, SendBlock, isDataBlock]
  · simpa using disk_write_sends_cmd o pdrv buff sector 0 s
  · intro hsd
    simpa using disk_write_sends_acmd23 o pdrv buff sector 0 s hsd (by omega)
  · intro h25
    simp only [disk_write]
    rw [if_neg (show ¬(((0 : Nat) == 1) = true) by decide)]
    split
    all_goals
      rw [show ∀ s1, (SendCommand o pdrv CMD25 (sectAddr s.cardType sector) s1).1 = 0
        from fun s1 => h25 _ _]
      simp [writeLoop, ReleaseSD, SendCommand, SendBlock, record]

/-- Witness for `C10_zero_count`: the transport `oC10` acknowledges only
CMD25, rejecting CMD17, every block transfer and the stop token; the stored
card type is SDv2 (SD family), sector 7; the inner hypotheses (SD-family
type, CMD25 acknowledged) are discharged concretely. -/
theorem C10_zero_count_witness :
    (disk_read oC10 0 0 7 0 initStSD).1 = DRESULT.ok
    ∧ recvBlockCount 0 ((disk_read oC10 0 0 7 0 initStSD).2) =
        recvBlockCount 0 initStSD
    ∧ Ev.cmd 0 CMD17 (sectAddr initStSD.cardType 7) ∈
        ((disk_read oC10 0 0 7 0 initStSD).2).trace
    ∧ (disk_write oC10 0 0 7 0 initStSD).1 = DRESULT.ok
    ∧ dataBlockCount 0 ((disk_write oC10 0 0 7 0 initStSD).2) =
        dataBlockCount 0 initStSD
    ∧ Ev.cmd 0 CMD25 (sectAddr initStSD.cardType 7) ∈
        ((disk_write oC10 0 0 7 0 initStSD).2).trace
    ∧ Ev.cmd 0 ACMD23 0 ∈ ((disk_write oC10 0 0 7 0 initStSD).2).trace
    ∧ Ev.sendBlock 0 0xfd ∈ ((disk_write oC10 0 0 7 0 initStSD).2).trace := by
  obtain ⟨h1, h2, h3, h4, h5, h6, h7, h8⟩ := C10_zero_count oC10 0 0 7 initStSD
  exact ⟨h1, h2, h3, h4, h5, h6, h7 (by decide), h8 (fun _ _ => rfl)⟩

end P2llvm
